import Mathlib

/-!
Shallow embedding of the notes application core
(`src/notes_frontend/src/App.js`): the Note Store operations
(`create`, `update`, `remove`, `replaceAll` from `useLocalNotes`),
the draft validation (`validate`), and the Sync Coordinator protocols
(`newNote`, `onDelete`, `onSave`, `bootstrap`).

Modelling conventions:
- Timestamps (`updatedAt`, produced in JS by `new Date().toISOString()`)
  are modelled as `Nat`. ISO-8601 strings compare the same way their
  underlying instants do, and `new Date(b.updatedAt) - new Date(a.updatedAt)`
  in the bootstrap sort comparator is exactly comparison of those instants.
  Each protocol step that stamps a time receives the clock value as an
  explicit parameter.
- The locally generated identifier `uid()` is passed in as a parameter;
  freshness (the id not being present in the store) is a hypothesis where
  a property needs it.
- JS objects with possibly-missing fields are modelled with `Option`
  fields; the JS `??` (nullish) fallback is `nullish` below, and the JS
  `s?.trim() || d` idiom is `jsOrDefault`.
- A remote call's outcome (resolved promise vs. rejection, which in the
  source covers network failure, timeout abort and non-2xx status alike)
  is an explicit parameter of each protocol function.
- `showToast (message, variant)` is modelled by the `Toast` value a
  protocol returns (`none` when no toast is shown on the modelled path).
-/

namespace NotesApp

/-- A note record: `{ id, title, content, updatedAt }` (App.js data model). -/
structure Note where
  id : String
  title : String
  content : String
  updatedAt : Nat
deriving DecidableEq, Repr

/-- A toast notification as produced by `showToast(message, variant)`. -/
structure Toast where
  message : String
  isError : Bool
deriving DecidableEq, Repr

/-- Outcome of an awaited remote call that carries no payload we use. -/
inductive RemoteResult where
  | success
  | failure
deriving DecidableEq, Repr

/-- JS `String.prototype.trim()`: strip leading and trailing whitespace,
modelled character-wise so that it evaluates inside the kernel. -/
def jsTrim (s : String) : String :=
  String.mk (((s.data.dropWhile Char.isWhitespace).reverse.dropWhile
    Char.isWhitespace).reverse)

/-- The JS idiom `s?.trim() || d`: missing value or blank-after-trim falls
back to the default `d`, otherwise the trimmed string is used. -/
def jsOrDefault (s : Option String) (d : String) : String :=
  match s with
  | none => d
  | some v => if jsTrim v = "" then d else jsTrim v

/-- The JS nullish fallback `a ?? b`. -/
def nullish (a b : Option String) : Option String :=
  match a with
  | some v => some v
  | none => b

/-- Input to the store's `create` (`data.title`, `data.content` may be absent). -/
structure CreateData where
  title : Option String
  content : Option String
deriving DecidableEq, Repr

/-- Store operation `create(data)` (App.js lines 110-119): builds
`{ id: uid(), title: data.title?.trim() || 'Untitled',
content: data.content?.trim() || '', updatedAt: now }`, prepends it and
returns it. The fresh id `newId` and the clock `now` are parameters. -/
def create (newId : String) (now : Nat) (data : CreateData) (store : List Note) :
    Note × List Note :=
  let item : Note :=
    { id := newId, title := jsOrDefault data.title "Untitled",
      content := jsOrDefault data.content "", updatedAt := now }
  (item, item :: store)

/-- A patch object passed to the store's `update`; any subset of the four
note fields may be present (call sites pass `{id, updatedAt}` or
`{title, content}` or a whole note). -/
structure Patch where
  id : Option String
  title : Option String
  content : Option String
  updatedAt : Option Nat
deriving DecidableEq, Repr

/-- The merge `{ ...n, ...data, updatedAt: new Date().toISOString() }`
performed inside the store's `update` (App.js line 127). Note that the
literal `updatedAt:` property comes after the spread of `data`, so the
patch's own `updatedAt` (if any) is always overridden by the fresh stamp. -/
def applyPatch (now : Nat) (p : Patch) (n : Note) : Note :=
  { id := p.id.getD n.id, title := p.title.getD n.title,
    content := p.content.getD n.content, updatedAt := now }

/-- Store operation `update(id, data)` (App.js lines 122-134): maps over the
collection patching every record whose `id` matches, and returns the last
patched record (the JS callback reassigns `updatedItem` per match) or
`null` when none matches, together with the new collection. -/
def update (now : Nat) (id : String) (p : Patch) (store : List Note) :
    Option Note × List Note :=
  ((store.reverse.find? (fun n => n.id == id)).map (applyPatch now p),
   store.map (fun n => if n.id == id then applyPatch now p n else n))

/-- Store operation `remove(id)` (App.js lines 137-139): filter out by id. -/
def remove (id : String) (store : List Note) : List Note :=
  store.filter (fun n => n.id != id)

/-- Store operation `replaceAll(items)` (App.js line 142). -/
def replaceAll (items : List Note) : List Note := items

/-- Draft validation (App.js lines 409-417). `!note.title || !note.title.trim()`
is equivalent, for a string-valued title, to the trimmed title being empty.
Returns the `errors.title` entry; `none` models the empty errors object. -/
def validate (note : Note) : Option String :=
  if jsTrim note.title = "" then some "Title is required"
  else if note.title.length > 120 then some "Title must be at most 120 characters"
  else none

/-- A full-record patch: passing a whole previous note as the `data`
argument of `update`, as the save rollback `update(prev.id, prev)` does. -/
def fullPatch (n : Note) : Patch :=
  { id := some n.id, title := some n.title, content := some n.content,
    updatedAt := some n.updatedAt }

/-- Result of the save protocol: the final store, whether a remote call was
issued, and the toast shown (if any). -/
structure SaveOutcome where
  store : List Note
  remoteCalled : Bool
  toast : Option Toast
deriving DecidableEq, Repr

/-- Save protocol `onSave` (App.js lines 419-448). Validate the draft; on
errors stop with no store mutation and no remote call. Otherwise capture
`prev`, optimistically `update(draft.id, {title, content})` at time
`nowSave`, and if the API is enabled await the remote update: on failure
roll back with `update(prev.id, prev)` at time `nowRollback`. -/
def onSave (draft : Note) (store : List Note) (apiEnabled : Bool)
    (res : RemoteResult) (nowSave nowRollback : Nat) : SaveOutcome :=
  match validate draft with
  | some _ => { store := store, remoteCalled := false, toast := none }
  | none =>
    let prev := store.find? (fun n => n.id == draft.id)
    let store1 := (update nowSave draft.id
      { id := none, title := some draft.title, content := some draft.content,
        updatedAt := none } store).2
    if apiEnabled then
      match res with
      | RemoteResult.success =>
        { store := store1, remoteCalled := true,
          toast := some { message := "Saved", isError := false } }
      | RemoteResult.failure =>
        let store2 :=
          match prev with
          | some p => (update nowRollback p.id (fullPatch p) store1).2
          | none => store1
        { store := store2, remoteCalled := true,
          toast := some { message := "Failed to sync save", isError := true } }
    else
      { store := store1, remoteCalled := false,
        toast := some { message := "Saved", isError := false } }

/-- The note object a successful remote `createNote` resolves with; only the
fields `newNote` reads are modelled. -/
structure SavedNote where
  id : Option String
  updatedAt : Option Nat
deriving DecidableEq, Repr

/-- Outcome of the remote `createNote` call. -/
inductive CreateRemote where
  | success (saved : SavedNote)
  | failure
deriving DecidableEq, Repr

/-- Create protocol `newNote` (App.js lines 359-383). Optimistically
`create({title: 'Untitled', content: ''})` with local id `localId` at time
`nowCreate`. If the API is enabled, attempt the remote create: on success,
when `saved.id` is truthy and differs from the local id, rebind via
`update(created.id, { id: newId, updatedAt: saved.updatedAt || now })`
at time `nowRebind`; on failure, `remove(created.id)`. -/
def newNote (localId : String) (nowCreate nowRebind : Nat) (apiEnabled : Bool)
    (res : CreateRemote) (store : List Note) : List Note × Option Toast :=
  let created :=
    (create localId nowCreate { title := some "Untitled", content := some "" } store).1
  let store1 :=
    (create localId nowCreate { title := some "Untitled", content := some "" } store).2
  if apiEnabled then
    match res with
    | CreateRemote.success saved =>
      let store2 :=
        match saved.id with
        | some sid =>
          if (sid != "") && (sid != created.id) then
            (update nowRebind created.id
              { id := some sid, title := none, content := none,
                updatedAt := some (saved.updatedAt.getD nowRebind) } store1).2
          else store1
        | none => store1
      (store2, some { message := "Note created", isError := false })
    | CreateRemote.failure =>
      (remove created.id store1,
       some { message := "Failed to sync create", isError := true })
  else
    (store1, some { message := "Note created", isError := false })

/-- The restored record `{ ...existing, updatedAt: new Date().toISOString() }`
built by the delete-failure handler (App.js line 396). -/
def restoreNote (now : Nat) (existing : Note) : Note :=
  { existing with updatedAt := now }

/-- Delete protocol `onDelete` (App.js lines 385-403). `snapshot` is the
`notes` array captured by the handler's closure at invocation time;
`interim` models whatever other mutations hit the store between the
optimistic removal and the remote call resolving (identity when nothing
intervenes). Missing id: early return. Otherwise remove optimistically;
on remote failure `replaceAll([restored, ...notes.filter(n => n.id !== id)])`
where `notes` is the captured snapshot, at time `now`. -/
def onDelete (id : String) (now : Nat) (apiEnabled : Bool) (res : RemoteResult)
    (snapshot : List Note) (interim : List Note → List Note) :
    List Note × Option Toast :=
  match snapshot.find? (fun n => n.id == id) with
  | none => (snapshot, none)
  | some existing =>
    let s1 := remove id snapshot
    if apiEnabled then
      match res with
      | RemoteResult.success =>
        (interim s1, some { message := "Note deleted", isError := false })
      | RemoteResult.failure =>
        (replaceAll (restoreNote now existing :: snapshot.filter (fun n => n.id != id)),
         some { message := "Failed to sync delete", isError := true })
    else (s1, some { message := "Note deleted", isError := false })

/-- A raw record of the remote listing, before normalization; `altId`
models the `_id` fallback field. All fields may be missing. -/
structure RawNote where
  id : Option String
  altId : Option String
  title : Option String
  content : Option String
  updatedAt : Option Nat
deriving DecidableEq, Repr

/-- Normalization of one remote record (App.js lines 309-314):
`{ id: String(n.id ?? n._id ?? uid()), title: String(n.title ?? 'Untitled'),
content: String(n.content ?? ''), updatedAt: n.updatedAt || now }`. -/
def normalizeRec (uidVal : String) (now : Nat) (n : RawNote) : Note :=
  { id := (nullish n.id n.altId).getD uidVal,
    title := n.title.getD "Untitled",
    content := n.content.getD "",
    updatedAt := n.updatedAt.getD now }

/-- What `api.listNotes()` produced: a rejection, a resolution with a
non-array payload, or a resolution with an array of raw records. -/
inductive ListResponse where
  | failure
  | notArray
  | arr (items : List RawNote)
deriving DecidableEq, Repr

/-- The bootstrap sort comparator `(a, b) => new Date(b.updatedAt) - new
Date(a.updatedAt)` as a merge-sort precedence: `a` may stay before `b`
exactly when `b`'s instant is not after `a`'s (descending, stable). -/
def byUpdatedAtDesc (a b : Note) : Bool := decide (b.updatedAt ≤ a.updatedAt)

/-- Bootstrap protocol (App.js lines 301-329). On a rejected `listNotes()`
the catch block does nothing; on a resolved non-array payload the
`Array.isArray` guard fails and nothing happens; on an array, normalize
each record (with `uid i` as the fresh-id fallback of record `i`), sort
descending by `updatedAt`, and `replaceAll`. No toast is ever shown. -/
def bootstrap (uid : Nat → String) (now : Nat) (store : List Note)
    (res : ListResponse) : List Note × Option Toast :=
  match res with
  | ListResponse.failure => (store, none)
  | ListResponse.notArray => (store, none)
  | ListResponse.arr items =>
    (replaceAll (List.mergeSort
        (items.mapIdx (fun i n => normalizeRec (uid i) now n)) byUpdatedAtDesc),
     none)

/-! Helper lemmas shared by the claim theorems. -/

set_option maxRecDepth 8000

/-- A record found by id in the store carries that id. -/
theorem find?_id_eq {store : List Note} {idv : String} {p : Note}
    (h : store.find? (fun n => n.id == idv) = some p) : p.id = idv := by
  have hp := List.find?_some h
  simpa using hp

/-- Patching by an id that occurs nowhere in the list is a no-op. -/
theorem map_patch_not_mem (idv : String) (f : Note → Note) :
    ∀ (l : List Note), idv ∉ l.map Note.id →
      l.map (fun n => if n.id == idv then f n else n) = l := by
  intro l
  induction l with
  | nil => intro _; rfl
  | cons a t ih =>
    intro hl
    have h1 : idv ≠ a.id ∧ idv ∉ t.map Note.id := by simpa using hl
    have ha : (a.id == idv) = false := by simp [Ne.symm h1.1]
    simp only [List.map_cons, ha, Bool.false_eq_true, if_false, ih h1.2]

/-- Removing an id that occurs nowhere in the list is a no-op. -/
theorem filter_ne_not_mem (idv : String) :
    ∀ (l : List Note), idv ∉ l.map Note.id →
      l.filter (fun n => n.id != idv) = l := by
  intro l
  induction l with
  | nil => intro _; rfl
  | cons a t ih =>
    intro hl
    have h1 : idv ≠ a.id ∧ idv ∉ t.map Note.id := by simpa using hl
    have ha : (a.id != idv) = true := by simp [bne_iff_ne, Ne.symm h1.1]
    simp [List.filter_cons, ha, ih h1.2]

/-- On a successful remote create whose truthy server id differs from the
fresh local id, `newNote` yields the rebound note (stamped with the rebind
clock, not the server's `updatedAt`) prepended to the untouched rest. -/
theorem newNote_rebind_eq (localId sid : String) (tCreate tRebind : Nat)
    (saved : SavedNote) (store : List Note)
    (hsid : saved.id = some sid) (hne : sid ≠ "") (hneq : sid ≠ localId)
    (hfresh : localId ∉ store.map Note.id) :
    newNote localId tCreate tRebind true (CreateRemote.success saved) store
      = ({ id := sid, title := "Untitled", content := "", updatedAt := tRebind } :: store,
         some { message := "Note created", isError := false }) := by
  have htitle : jsOrDefault (some "Untitled") "Untitled" = "Untitled" := by decide
  have hcontent : jsOrDefault (some "") "" = "" := by decide
  have hcond : ((sid != "") && (sid != localId)) = true := by
    simp [bne_iff_ne, hne, hneq]
  simp only [newNote, create, htitle, hcontent, hsid, if_true, hcond, update,
    List.map_cons]
  rw [map_patch_not_mem localId _ store hfresh]
  simp [applyPatch]

/-! Claim theorems. -/

/-- C1, counterexample: the claim that after a failed remote update the
store entry equals the captured pre-update record exactly, all fields
including `updatedAt`, is false: saving draft (a, X, y) over note
(a, T, c, 5) with the remote failing, the rollback re-runs the store's
`update` which restamps `updatedAt` (here to 11), so the entry differs
from the snapshot (a, T, c, 5). -/
theorem save_rollback_not_exact :
    (onSave { id := "a", title := "X", content := "y", updatedAt := 5 }
        [{ id := "a", title := "T", content := "c", updatedAt := 5 }]
        true RemoteResult.failure 10 11).store.find? (fun n => n.id == "a")
      ≠ some { id := "a", title := "T", content := "c", updatedAt := 5 } := by
  decide

/-- C1 (amended): for every note in the store and every valid draft for
it, if the remote update fails, the rollback restores the store entry to
the captured pre-update record in `id`, `title` and `content`, but
`updatedAt` is freshly restamped by the rollback's `update` call (it does
not keep the snapshot's `updatedAt`); every other entry is untouched, and
failure is reported. -/
theorem save_rollback_restamps (draft prev : Note) (store : List Note)
    (t1 t2 : Nat) (hval : validate draft = none)
    (hprev : store.find? (fun n => n.id == draft.id) = some prev) :
    (onSave draft store true RemoteResult.failure t1 t2).store
      = store.map (fun n => if n.id == draft.id then
          { id := prev.id, title := prev.title, content := prev.content,
            updatedAt := t2 } else n)
    ∧ (onSave draft store true RemoteResult.failure t1 t2).toast
      = some { message := "Failed to sync save", isError := true } := by
  have hid : prev.id = draft.id := find?_id_eq hprev
  constructor
  · simp only [onSave, hval, hprev, update, if_true, List.map_map]
    apply List.map_congr_left
    intro n _
    by_cases hn : n.id = draft.id
    · simp [applyPatch, fullPatch, hn, hid]
    · have h1 : (n.id == draft.id) = false := by simp [hn]
      have h2 : (n.id == prev.id) = false := by
        rw [hid]; exact h1
      simp [Function.comp, applyPatch, h1, h2]
  · simp only [onSave, hval, hprev, if_true]

/-- C1 witness: instantiates the amended rollback theorem on the concrete
store [(a, T, c, 5)] with draft (a, X, y, 5) and clocks 10 and 11. -/
theorem save_rollback_restamps_witness :
    (onSave { id := "a", title := "X", content := "y", updatedAt := 5 }
        [{ id := "a", title := "T", content := "c", updatedAt := 5 }]
        true RemoteResult.failure 10 11).store
      = [{ id := "a", title := "T", content := "c", updatedAt := 11 }]
    ∧ (onSave { id := "a", title := "X", content := "y", updatedAt := 5 }
        [{ id := "a", title := "T", content := "c", updatedAt := 5 }]
        true RemoteResult.failure 10 11).toast
      = some { message := "Failed to sync save", isError := true } := by
  have h := save_rollback_restamps
    { id := "a", title := "X", content := "y", updatedAt := 5 }
    { id := "a", title := "T", content := "c", updatedAt := 5 }
    [{ id := "a", title := "T", content := "c", updatedAt := 5 }]
    10 11 (by decide) (by decide)
  simpa using h

/-- C2, counterexample: the claim that a successful create whose server id
differs from the local one restamps `updatedAt` from the server's response
is false: with local id a1, server response (id srv, updatedAt 7) and
rebind clock 9, the rebound note carries `updatedAt` 9 (the local clock),
not the server's 7 — the store's `update` overrides the patch's
`updatedAt` with a fresh stamp. -/
theorem create_rebind_ignores_server_stamp :
    (newNote "a1" 5 9 true
        (CreateRemote.success { id := some "srv", updatedAt := some 7 }) []).1
      = [{ id := "srv", title := "Untitled", content := "", updatedAt := 9 }]
    ∧ (9 : Nat) ≠ 7 := by
  decide

/-- C2 (amended): for every create where the remote create succeeds and
the truthy server-assigned id differs from the fresh local one, the
coordinator rebinds the note's id in the store to the server value, but
the note's `updatedAt` is set to a fresh local stamp (the rebind clock):
the server's `updatedAt`, though passed in the patch, is overridden by the
store's `update`. Success is reported. -/
theorem create_rebind_fresh_stamp (localId sid : String) (tCreate tRebind : Nat)
    (saved : SavedNote) (store : List Note)
    (hsid : saved.id = some sid) (hne : sid ≠ "") (hneq : sid ≠ localId)
    (hfresh : localId ∉ store.map Note.id) :
    (newNote localId tCreate tRebind true (CreateRemote.success saved) store).1
      = { id := sid, title := "Untitled", content := "", updatedAt := tRebind } :: store
    ∧ (newNote localId tCreate tRebind true (CreateRemote.success saved) store).2
      = some { message := "Note created", isError := false } := by
  have h := newNote_rebind_eq localId sid tCreate tRebind saved store hsid hne hneq hfresh
  rw [h]
  exact ⟨rfl, rfl⟩

/-- C2 witness: instantiates the amended rebind theorem with local id a1,
server id srv, server stamp 7, rebind clock 9 and an empty prior store. -/
theorem create_rebind_fresh_stamp_witness :
    (newNote "a1" 5 9 true
        (CreateRemote.success { id := some "srv", updatedAt := some 7 }) []).1
      = [{ id := "srv", title := "Untitled", content := "", updatedAt := 9 }]
    ∧ (newNote "a1" 5 9 true
        (CreateRemote.success { id := some "srv", updatedAt := some 7 }) []).2
      = some { message := "Note created", isError := false } := by
  have h := create_rebind_fresh_stamp "a1" "srv" 5 9
    { id := some "srv", updatedAt := some 7 } [] (by decide) (by decide)
    (by decide) (by decide)
  simpa using h

/-- C3: for every create whose remote create call fails, the optimistic
note (carrying the fresh local id) is removed again, so the store equals
exactly what it was before the create began, and failure is reported. -/
theorem create_failure_full_rollback (localId : String) (tCreate tRebind : Nat)
    (store : List Note) (hfresh : localId ∉ store.map Note.id) :
    (newNote localId tCreate tRebind true CreateRemote.failure store).1 = store
    ∧ (newNote localId tCreate tRebind true CreateRemote.failure store).2
      = some { message := "Failed to sync create", isError := true } := by
  have htitle : jsOrDefault (some "Untitled") "Untitled" = "Untitled" := by decide
  have hcontent : jsOrDefault (some "") "" = "" := by decide
  constructor
  · simp only [newNote, create, htitle, hcontent, if_true, remove,
      List.filter_cons]
    have hself : (localId != localId) = false := by simp
    rw [hself]
    simp only [Bool.false_eq_true, if_false]
    exact filter_ne_not_mem localId store hfresh
  · simp only [newNote, if_true]

/-- C3 witness: instantiates the create rollback theorem with local id a1
over the one-note store [(b, B, bb, 3)]. -/
theorem create_failure_full_rollback_witness :
    (newNote "a1" 5 9 true CreateRemote.failure
        [{ id := "b", title := "B", content := "bb", updatedAt := 3 }]).1
      = [{ id := "b", title := "B", content := "bb", updatedAt := 3 }]
    ∧ (newNote "a1" 5 9 true CreateRemote.failure
        [{ id := "b", title := "B", content := "bb", updatedAt := 3 }]).2
      = some { message := "Failed to sync create", isError := true } := by
  have h := create_failure_full_rollback "a1" 5 9
    [{ id := "b", title := "B", content := "bb", updatedAt := 3 }] (by decide)
  simpa using h

/-- C5: after a remote create succeeds with a truthy server id that is not
already in the store and differs from the fresh local id, exactly one note
carries the new id, no note retains the local id, and id-uniqueness of the
store is preserved. -/
theorem rebind_id_unique (localId sid : String) (tCreate tRebind : Nat)
    (saved : SavedNote) (store : List Note)
    (hsid : saved.id = some sid) (hne : sid ≠ "") (hneq : sid ≠ localId)
    (hfreshLocal : localId ∉ store.map Note.id)
    (hfreshSrv : sid ∉ store.map Note.id)
    (hnodup : (store.map Note.id).Nodup) :
    (((newNote localId tCreate tRebind true (CreateRemote.success saved)
        store).1.map Note.id).count sid = 1)
    ∧ (((newNote localId tCreate tRebind true (CreateRemote.success saved)
        store).1.map Note.id).count localId = 0)
    ∧ ((newNote localId tCreate tRebind true (CreateRemote.success saved)
        store).1.map Note.id).Nodup := by
  have h := newNote_rebind_eq localId sid tCreate tRebind saved store hsid hne hneq hfreshLocal
  have h1 : (newNote localId tCreate tRebind true (CreateRemote.success saved)
      store).1 = Note.mk sid "Untitled" "" tRebind :: store := by rw [h]
  rw [h1]
  refine ⟨?_, ?_, ?_⟩
  · simp [List.count_cons, List.count_eq_zero.mpr hfreshSrv]
  · simp [List.count_cons, List.count_eq_zero.mpr hfreshLocal, Ne.symm hneq]
  · simp [List.nodup_cons, hfreshSrv, hnodup]

/-- C5 witness: instantiates the uniqueness theorem with local id a1,
server id srv and prior store [(b, B, bb, 3)]. -/
theorem rebind_id_unique_witness :
    (((newNote "a1" 5 9 true
        (CreateRemote.success { id := some "srv", updatedAt := some 7 })
        [{ id := "b", title := "B", content := "bb", updatedAt := 3 }]).1.map
        Note.id).count "srv" = 1)
    ∧ (((newNote "a1" 5 9 true
        (CreateRemote.success { id := some "srv", updatedAt := some 7 })
        [{ id := "b", title := "B", content := "bb", updatedAt := 3 }]).1.map
        Note.id).count "a1" = 0)
    ∧ ((newNote "a1" 5 9 true
        (CreateRemote.success { id := some "srv", updatedAt := some 7 })
        [{ id := "b", title := "B", content := "bb", updatedAt := 3 }]).1.map
        Note.id).Nodup := by
  have h := rebind_id_unique "a1" "srv" 5 9
    { id := some "srv", updatedAt := some 7 }
    [{ id := "b", title := "B", content := "bb", updatedAt := 3 }]
    (by decide) (by decide) (by decide) (by decide) (by decide) (by decide)
  simpa using h

/-- C4: for every note present in the captured collection, if the remote
delete fails, the note reappears at the front of the store with its
original `id`, `title` and `content` and a freshly stamped `updatedAt`,
and failure is reported. -/
theorem delete_failure_restores_front (idv : String) (now : Nat)
    (snapshot : List Note) (existing : Note) (interim : List Note → List Note)
    (hfind : snapshot.find? (fun n => n.id == idv) = some existing) :
    (onDelete idv now true RemoteResult.failure snapshot interim).1.head?
      = some { id := existing.id, title := existing.title,
               content := existing.content, updatedAt := now }
    ∧ (onDelete idv now true RemoteResult.failure snapshot interim).2
      = some { message := "Failed to sync delete", isError := true } := by
  simp only [onDelete, hfind, if_true, replaceAll, restoreNote, List.head?_cons]
  exact ⟨trivial, trivial⟩

/-- C4 witness: instantiates the delete-restore theorem deleting note a
from [(a, T, c, 5), (b, B, bb, 3)] with restore clock 20 and no concurrent
mutation. -/
theorem delete_failure_restores_front_witness :
    (onDelete "a" 20 true RemoteResult.failure
        [{ id := "a", title := "T", content := "c", updatedAt := 5 },
         { id := "b", title := "B", content := "bb", updatedAt := 3 }]
        (fun s => s)).1.head?
      = some { id := "a", title := "T", content := "c", updatedAt := 20 }
    ∧ (onDelete "a" 20 true RemoteResult.failure
        [{ id := "a", title := "T", content := "c", updatedAt := 5 },
         { id := "b", title := "B", content := "bb", updatedAt := 3 }]
        (fun s => s)).2
      = some { message := "Failed to sync delete", isError := true } := by
  have h := delete_failure_restores_front "a" 20
    [{ id := "a", title := "T", content := "c", updatedAt := 5 },
     { id := "b", title := "B", content := "bb", updatedAt := 3 }]
    { id := "a", title := "T", content := "c", updatedAt := 5 }
    (fun s => s) (by decide)
  simpa using h

/-- C9: when the remote delete fails, the restore handler rebuilds the
whole store from the closure-captured snapshot — the restored record
prepended to the snapshot minus the deleted id — for every possible
interim mutation of the store, so any note created or updated between the
optimistic removal and the remote failure is discarded: every member of
the resulting store is either the restored record or a member of the
original snapshot. -/
theorem delete_restore_ignores_interim (idv : String) (now : Nat)
    (snapshot : List Note) (existing : Note) (interim : List Note → List Note)
    (hfind : snapshot.find? (fun n => n.id == idv) = some existing) :
    (onDelete idv now true RemoteResult.failure snapshot interim).1
      = restoreNote now existing :: snapshot.filter (fun n => n.id != idv)
    ∧ (∀ m, m ∈ (onDelete idv now true RemoteResult.failure snapshot interim).1 →
        m = restoreNote now existing ∨ m ∈ snapshot) := by
  constructor
  · simp only [onDelete, hfind, if_true, replaceAll]
  · intro m hm
    simp only [onDelete, hfind, if_true, replaceAll, List.mem_cons] at hm
    rcases hm with h | h
    · exact Or.inl h
    · exact Or.inr (List.mem_of_mem_filter h)

/-- C9 witness: instantiates the frame theorem deleting note a from
[(a, T, c, 5), (b, B, bb, 3)] while an interim mutation prepends an
unrelated note (z, Z, zz, 99); the restore discards it. -/
theorem delete_restore_ignores_interim_witness :
    (onDelete "a" 21 true RemoteResult.failure
        [{ id := "a", title := "T", content := "c", updatedAt := 5 },
         { id := "b", title := "B", content := "bb", updatedAt := 3 }]
        (fun s => { id := "z", title := "Z", content := "zz", updatedAt := 99 } :: s)).1
      = restoreNote 21 { id := "a", title := "T", content := "c", updatedAt := 5 }
        :: List.filter (fun n => n.id != "a")
            [{ id := "a", title := "T", content := "c", updatedAt := 5 },
             { id := "b", title := "B", content := "bb", updatedAt := 3 }] := by
  have h := delete_restore_ignores_interim "a" 21
    [{ id := "a", title := "T", content := "c", updatedAt := 5 },
     { id := "b", title := "B", content := "bb", updatedAt := 3 }]
    { id := "a", title := "T", content := "c", updatedAt := 5 }
    (fun s => { id := "z", title := "Z", content := "zz", updatedAt := 99 } :: s)
    (by decide)
  exact h.1

/-- C6: validation is a pure function of the draft. A draft whose title
trims to empty yields the error message and the save protocol performs no
store mutation and no remote call; a non-blank title of exactly 120
characters passes; a non-blank title of 121 characters is rejected with
the length message; the content (and every non-title field) never affects
validation. -/
theorem validate_spec :
    (∀ (draft : Note) (store : List Note) (apiEnabled : Bool)
        (res : RemoteResult) (t1 t2 : Nat), jsTrim draft.title = "" →
        validate draft = some "Title is required"
        ∧ (onSave draft store apiEnabled res t1 t2).store = store
        ∧ (onSave draft store apiEnabled res t1 t2).remoteCalled = false)
    ∧ (∀ n : Note, jsTrim n.title ≠ "" → n.title.length = 120 →
        validate n = none)
    ∧ (∀ n : Note, jsTrim n.title ≠ "" → n.title.length = 121 →
        validate n = some "Title must be at most 120 characters")
    ∧ (∀ (i t c c2 : String) (u u2 : Nat),
        validate { id := i, title := t, content := c, updatedAt := u }
          = validate { id := i, title := t, content := c2, updatedAt := u2 }) := by
  refine ⟨?_, ?_, ?_, ?_⟩
  · intro draft store apiEnabled res t1 t2 h
    have hv : validate draft = some "Title is required" := by
      simp [validate, h]
    exact ⟨hv, by simp [onSave, hv], by simp [onSave, hv]⟩
  · intro n h1 h2
    simp [validate, h1, h2]
  · intro n h1 h2
    simp [validate, h1, h2]
  · intro i t c c2 u u2
    rfl

/-- C6 witness: instantiates the validation theorem on an empty title, a
non-blank title of 120 characters and a non-blank title of 121
characters. -/
theorem validate_spec_witness :
    validate { id := "i", title := "", content := "c", updatedAt := 0 }
      = some "Title is required"
    ∧ validate { id := "i", title := String.mk (List.replicate 120 'a'),
                 content := "", updatedAt := 0 } = none
    ∧ validate { id := "i", title := String.mk (List.replicate 121 'a'),
                 content := "", updatedAt := 0 }
      = some "Title must be at most 120 characters" := by
  refine ⟨?_, ?_, ?_⟩
  · exact (validate_spec.1 { id := "i", title := "", content := "c", updatedAt := 0 }
      [] false RemoteResult.success 0 0 (by decide)).1
  · exact validate_spec.2.1
      { id := "i", title := String.mk (List.replicate 120 'a'),
        content := "", updatedAt := 0 } (by decide) (by decide)
  · exact validate_spec.2.2.1
      { id := "i", title := String.mk (List.replicate 121 'a'),
        content := "", updatedAt := 0 } (by decide) (by decide)

/-- C7: bootstrap. On a rejected listing the store is left unchanged; on a
successful array listing each record is normalized (id from `id` then
`_id` then a fresh uid, title defaulted to Untitled, content defaulted to
empty, `updatedAt` defaulted to now), the result is sorted descending by
`updatedAt` and wholly replaces the local collection (it is exactly a
permutation of the normalized records). -/
theorem bootstrap_spec (uid : Nat → String) (now : Nat) (store : List Note)
    (items : List RawNote) :
    ((bootstrap uid now store ListResponse.failure).1 = store)
    ∧ ((bootstrap uid now store (ListResponse.arr items)).1.Pairwise
        (fun a b => b.updatedAt ≤ a.updatedAt))
    ∧ ((bootstrap uid now store (ListResponse.arr items)).1.Perm
        (items.mapIdx (fun i n => normalizeRec (uid i) now n)))
    ∧ (∀ (u : String) (r : RawNote),
        (normalizeRec u now r).id = (nullish r.id r.altId).getD u
        ∧ (normalizeRec u now r).title = r.title.getD "Untitled"
        ∧ (normalizeRec u now r).content = r.content.getD ""
        ∧ (normalizeRec u now r).updatedAt = r.updatedAt.getD now) := by
  refine ⟨rfl, ?_, ?_, ?_⟩
  · have htrans : ∀ (a b c : Note), byUpdatedAtDesc a b → byUpdatedAtDesc b c →
        byUpdatedAtDesc a c := by
      intro a b c hab hbc
      simp only [byUpdatedAtDesc, decide_eq_true_eq] at hab hbc ⊢
      omega
    have htotal : ∀ (a b : Note), byUpdatedAtDesc a b || byUpdatedAtDesc b a := by
      intro a b
      simp only [byUpdatedAtDesc, Bool.or_eq_true, decide_eq_true_eq]
      omega
    have hs := List.sorted_mergeSort htrans htotal
      (items.mapIdx (fun i n => normalizeRec (uid i) now n))
    simp only [bootstrap, replaceAll]
    refine List.Pairwise.imp ?_ hs
    intro a b hab
    simpa [byUpdatedAtDesc] using hab
  · simp only [bootstrap, replaceAll]
    exact List.mergeSort_perm
      (items.mapIdx (fun i n => normalizeRec (uid i) now n)) byUpdatedAtDesc
  · intro u r
    exact ⟨rfl, rfl, rfl, rfl⟩

/-- C8: the store's `create` prepends a record carrying the supplied fresh
id and clock to the unchanged collection and returns it; the title is
trimmed and defaults to Untitled when missing or blank, the content is
trimmed and defaults to empty; id-uniqueness of the store is preserved. -/
theorem create_spec (newId : String) (now : Nat) (data : CreateData)
    (store : List Note) (hfresh : newId ∉ store.map Note.id)
    (hnodup : (store.map Note.id).Nodup) :
    ((create newId now data store).2 = (create newId now data store).1 :: store)
    ∧ (create newId now data store).1.id = newId
    ∧ (create newId now data store).1.updatedAt = now
    ∧ (data.title = none → (create newId now data store).1.title = "Untitled")
    ∧ (∀ s, data.title = some s → jsTrim s = "" →
        (create newId now data store).1.title = "Untitled")
    ∧ (∀ s, data.title = some s → jsTrim s ≠ "" →
        (create newId now data store).1.title = jsTrim s)
    ∧ (data.content = none → (create newId now data store).1.content = "")
    ∧ (∀ s, data.content = some s →
        (create newId now data store).1.content = jsTrim s)
    ∧ ((create newId now data store).2.map Note.id).Nodup := by
  refine ⟨rfl, rfl, rfl, ?_, ?_, ?_, ?_, ?_, ?_⟩
  · intro h; simp [create, jsOrDefault, h]
  · intro s hs h; simp [create, jsOrDefault, hs, h]
  · intro s hs h; simp [create, jsOrDefault, hs, h]
  · intro h; simp [create, jsOrDefault, h]
  · intro s hs
    by_cases h : jsTrim s = ""
    · simp [create, jsOrDefault, hs, h]
    · simp [create, jsOrDefault, hs, h]
  · simp only [create, List.map_cons]
    exact List.nodup_cons.mpr ⟨hfresh, hnodup⟩

/-- C8 witness: instantiates the create theorem with fresh id n1, clock 8,
input (title "  hi  ", content missing) over store [(b, B, bb, 3)]. -/
theorem create_spec_witness :
    ((create "n1" 8 { title := some "  hi  ", content := none }
        [{ id := "b", title := "B", content := "bb", updatedAt := 3 }]).2
      = (create "n1" 8 { title := some "  hi  ", content := none }
          [{ id := "b", title := "B", content := "bb", updatedAt := 3 }]).1
        :: [{ id := "b", title := "B", content := "bb", updatedAt := 3 }])
    ∧ (create "n1" 8 { title := some "  hi  ", content := none }
        [{ id := "b", title := "B", content := "bb", updatedAt := 3 }]).1.id = "n1"
    ∧ (create "n1" 8 { title := some "  hi  ", content := none }
        [{ id := "b", title := "B", content := "bb", updatedAt := 3 }]).1.title
      = jsTrim "  hi  "
    ∧ (create "n1" 8 { title := some "  hi  ", content := none }
        [{ id := "b", title := "B", content := "bb", updatedAt := 3 }]).1.content = ""
    ∧ ((create "n1" 8 { title := some "  hi  ", content := none }
        [{ id := "b", title := "B", content := "bb", updatedAt := 3 }]).2.map
        Note.id).Nodup := by
  have h := create_spec "n1" 8 { title := some "  hi  ", content := none }
    [{ id := "b", title := "B", content := "bb", updatedAt := 3 }]
    (by decide) (by decide)
  exact ⟨h.1, h.2.1, h.2.2.2.2.2.1 "  hi  " rfl (by decide),
    h.2.2.2.2.2.2.1 rfl, h.2.2.2.2.2.2.2.2⟩

/-- C10: when the bootstrap listing resolves successfully but with a
non-array payload, the guard fails silently: the local store is left
completely unchanged and no toast of any kind is surfaced. -/
theorem bootstrap_not_array_noop (uid : Nat → String) (now : Nat)
    (store : List Note) :
    bootstrap uid now store ListResponse.notArray = (store, none) := rfl

end NotesApp
